import Mathlib

/-!
Shallow embedding of the sonic-exporter collectors (internal/collector,
files for the hardware and CRM resource-counter domains) and of the redis
client wrapper, for checking the specification's claims.

Modelling conventions:
* Go `float64` metric values are modelled as `Rat` (every value the code
  produces comes from parsing a decimal string, or is 0/1).
* Go `time.Time` is modelled as `Nat`; the zero value of `time.Time`
  held by a fresh collector (for which `time.Since` is always far larger
  than the 15s TTL) is modelled as `none : Option Nat`.
* The redis store is a pure structure of two primitives (KEYS pattern
  listing and HGETALL field fetch), each returning `Except` like the Go
  methods return `(value, error)`.  `redis.NewClient` is modelled by an
  `Except String RedisStore` argument (error = client initialization
  failure).
* A Go map `map[string]string` is modelled as an association list;
  `data[k]` (zero-value lookup) is `lookupD`, `v, ok := data[k]` is
  `List.lookup`.
* Out-of-range indexing (Go run-time panic) is modelled by `Option`:
  a collection step that panics yields `SubResult.panicked`, and a
  `Collect` that panics yields `none`.
* Wall-clock scrape duration is abstracted as an explicit `dur : Rat`
  argument (its value is never inspected by the code).
-/

/-- One assembled metric sample: the descriptor's fully qualified name,
the gauge value, and the ordered label values. -/
structure Metric where
  desc : String
  value : Rat
  labels : List String
deriving Repr, DecidableEq

/-- Mutable state of one collector instance: the cached sample list and
the time of the last fully successful scrape (`none` = never scraped,
the `time.Time` zero value). -/
structure CollectorState where
  cachedMetrics : List Metric
  lastScrapeTime : Option Nat
deriving Repr, DecidableEq

/-- The two key-value store primitives consumed by the collectors
(`KeysFromDb` and `HgetAllFromDb`), as pure fallible functions of the
database name and the pattern / key. -/
structure RedisStore where
  keysFromDb : String → String → Except String (List String)
  hgetAllFromDb : String → String → Except String (List (String × String))

/-- Outcome of one sub-collection pass: normal completion, an error
returned to the orchestrator, or a run-time panic (out-of-range index). -/
inductive SubResult where
  | panicked : SubResult
  | failed : String → SubResult
  | ok : SubResult
deriving Repr, DecidableEq

/-- Go `strings.Split(s, sep)` for a one-character separator, on the
character list: splits at every occurrence, always returns at least one
(possibly empty) part. -/
def goSplitChar (sep : Char) : List Char → List (List Char)
  | [] => [[]]
  | c :: cs =>
    match goSplitChar sep cs with
    | [] => [[]]
    | p :: ps => if c == sep then [] :: p :: ps else (c :: p) :: ps

/-- Go `strings.Split` on strings, one-character separator. -/
def goSplit (s : String) (sep : Char) : List String :=
  (goSplitChar sep s.data).map String.mk

/-- Go map read `data[k]`: the stored value, or the zero value `""` when
the key is absent. -/
def lookupD (data : List (String × String)) (k : String) : String :=
  (data.lookup k).getD ""

/-- Go `strings.HasSuffix`, character-list based. -/
def goHasSuffix (s p : String) : Bool :=
  p.data.isSuffixOf s.data

/-- Go `strings.TrimPrefix`: drop the leading pattern when present,
otherwise return the string unchanged. -/
def trimPre (s p : String) : String :=
  if p.data.isPrefixOf s.data then String.mk (s.data.drop p.data.length) else s

/-- Go `strings.TrimSuffix`: drop the trailing pattern when present,
otherwise return the string unchanged. -/
def trimSuf (s p : String) : String :=
  if goHasSuffix s p then String.mk (s.data.take (s.data.length - p.data.length)) else s

/-- Decimal digit run at the front of a character list (greedy). -/
def takeDigits (l : List Char) : List Char × List Char :=
  (l.takeWhile Char.isDigit, l.dropWhile Char.isDigit)

/-- Value of a digit run as a natural number. -/
def digitsToNat (l : List Char) : Nat :=
  l.foldl (fun a c => a * 10 + (c.toNat - 48)) 0

/-- Unsigned decimal literal: digits with an optional single point,
at least one digit overall. -/
def parseFloatCore (l : List Char) : Option Rat :=
  let (ip, rest) := takeDigits l
  match rest with
  | [] => if ip.isEmpty then none else some (digitsToNat ip : Rat)
  | '.' :: rest2 =>
    let (fp, rest3) := takeDigits rest2
    if rest3.isEmpty && !(ip.isEmpty && fp.isEmpty) then
      some ((digitsToNat ip : Rat) + (digitsToNat fp : Rat) / (10 : Rat) ^ fp.length)
    else none
  | _ => none

/-- Modelled from the spec: the shared field-coercion helper `parseFloat`,
whose defining file of this repository is not among the provided sources
(only its call sites are).  Per the spec, it "parses using standard
floating-point lexical rules; returns not-ok on any lexical failure":
an optional sign followed by a decimal literal. -/
def parseFloat (s : String) : Option Rat :=
  match s.data with
  | '-' :: rest => (parseFloatCore rest).map (fun q => -q)
  | '+' :: rest => parseFloatCore rest
  | l => parseFloatCore l

/-- Go `strings.ToLower`, character by character (the keys and values
the collectors compare are ASCII). -/
def goToLower (s : String) : String := String.mk (s.data.map Char.toLower)

/-- The boolean-flag coercion used for status/presence fields:
`strings.ToLower(raw) == "true"` mapped to gauge 1, anything else to 0. -/
def boolGauge (raw : String) : Rat :=
  if goToLower raw == "true" then 1 else 0

/-- Zero or one sample from an optional numeric field: present exactly
when `parseFloat` succeeds on the raw value. -/
def optMetric (d : String) (raw : String) (labels : List String) : List Metric :=
  match parseFloat raw with
  | some v => [⟨d, v, labels⟩]
  | none => []

/-! Descriptor names, as built by `prometheus.BuildFQName` at collector
construction. -/

def hwPsuInfoD : String := "sonic_hw_psu_info"
def hwPsuInputVoltageVoltsD : String := "sonic_hw_psu_input_voltage_volts"
def hwPsuInputCurrentAmperesD : String := "sonic_hw_psu_input_current_amperes"
def hwPsuOutputVoltageVoltsD : String := "sonic_hw_psu_output_voltage_volts"
def hwPsuOutputCurrentAmperesD : String := "sonic_hw_psu_output_current_amperes"
def hwPsuOperationalStatusD : String := "sonic_hw_psu_operational_status"
def hwPsuAvailableStatusD : String := "sonic_hw_psu_available_status"
def hwPsuTemperatureCelsiusD : String := "sonic_hw_psu_temperature_celsius"
def hwFanRpmD : String := "sonic_hw_fan_rpm"
def hwFanOperationalStatusD : String := "sonic_hw_fan_operational_status"
def hwFanAvailableStatusD : String := "sonic_hw_fan_available_status"
def hwChassisInfoD : String := "sonic_hw_chassis_info"
def hwScrapeDurationD : String := "sonic_hw_scrape_duration_seconds"
def hwCollectorSuccessD : String := "sonic_hw_collector_success"
def crmResourceAvailableD : String := "sonic_crm_resource_available"
def crmResourceUsedD : String := "sonic_crm_resource_used"
def crmAclResourceAvailableD : String := "sonic_crm_acl_resource_available"
def crmAclResourceUsedD : String := "sonic_crm_acl_resource_used"
def crmScrapeDurationD : String := "sonic_crm_scrape_duration_seconds"
def crmCollectorSuccessD : String := "sonic_crm_collector_success"

/-- Samples appended for one PSU record (`hwCollector.collectPsuInfo`
loop body, after the key split): the info sample, the two boolean
status samples, then the five optional numeric samples. -/
def psuMetricsForKey (psuId : String) (data : List (String × String)) : List Metric :=
  [⟨hwPsuInfoD, 1, [psuId, lookupD data "serial", lookupD data "name", lookupD data "model"]⟩,
   ⟨hwPsuOperationalStatusD, boolGauge (lookupD data "status"), [psuId]⟩,
   ⟨hwPsuAvailableStatusD, boolGauge (lookupD data "presence"), [psuId]⟩]
  ++ optMetric hwPsuInputVoltageVoltsD (lookupD data "input_voltage") [psuId]
  ++ optMetric hwPsuInputCurrentAmperesD (lookupD data "input_current") [psuId]
  ++ optMetric hwPsuOutputVoltageVoltsD (lookupD data "output_voltage") [psuId]
  ++ optMetric hwPsuOutputCurrentAmperesD (lookupD data "output_current") [psuId]
  ++ optMetric hwPsuTemperatureCelsiusD (lookupD data "temp") [psuId]

/-- Per-key loop of `hwCollector.collectPsuInfo`:
`psuId := strings.Split(psuKey, " ")[1]` (panics when the key holds no
space), then HGETALL, then the samples for the record; a fetch error
stops the loop keeping the samples appended so far. -/
def collectPsuInfoLoop (store : RedisStore) : List String → List Metric × SubResult
  | [] => ([], .ok)
  | key :: rest =>
    match (goSplit key ' ').get? 1 with
    | none => ([], .panicked)
    | some psuId =>
      match store.hgetAllFromDb "STATE_DB" key with
      | .error e => ([], .failed e)
      | .ok data =>
        let (more, r) := collectPsuInfoLoop store rest
        (psuMetricsForKey psuId data ++ more, r)

/-- `hwCollector.collectPsuInfo`: list the `PSU_INFO|PSU*` keys of
STATE_DB, then process each key. -/
def collectPsuInfo (store : RedisStore) : List Metric × SubResult :=
  match store.keysFromDb "STATE_DB" "PSU_INFO|PSU*" with
  | .error e => ([], .failed e)
  | .ok keys => collectPsuInfoLoop store keys

/-- Caseless match of a literal at the front of the input; returns the
consumed input characters (original case) and the remainder. -/
def caselessTake : List Char → List Char → Option (List Char × List Char)
  | [], l => some ([], l)
  | _ :: _, [] => none
  | p :: ps, c :: cs =>
    if p.toLower == c.toLower then
      (caselessTake ps cs).map (fun t => (c :: t.1, t.2))
    else none

/-- One alternative of the first capture group: a caseless literal
followed by one or more digits (greedy); returns the consumed input and
the remainder. -/
def matchAlt (lit : List Char) (l : List Char) : Option (List Char × List Char) :=
  match caselessTake lit l with
  | none => none
  | some (consumed, rest) =>
    let (ds, rest2) := takeDigits rest
    if ds.isEmpty then none else some (consumed ++ ds, rest2)

/-- The RE2 whitespace class of the fan pattern: a tab, newline, form
feed, carriage return or space. -/
def isSpaceClass (c : Char) : Bool :=
  c == '\t' || c == '\n' || c == '\x0c' || c == '\r' || c == ' '

/-- Try the fan regular expression
  (?i)FAN_INFO[|](PSU[0-9]+|Fantray[0-9]+)([\t\n\x0c\r ]|[-])(.+)
anchored at the start of the input; on success returns the first and
third capture groups.  The final (.+) is greedy and stops at a newline,
as an unflagged RE2 dot does. -/
def fanMatchAt (l : List Char) : Option (String × String) :=
  match caselessTake "FAN_INFO|".data l with
  | none => none
  | some (_, r1) =>
    match (matchAlt "PSU".data r1).orElse (fun _ => matchAlt "Fantray".data r1) with
    | none => none
    | some (g1, r2) =>
      match r2 with
      | [] => none
      | sep :: r3 =>
        if isSpaceClass sep || sep == '-' then
          let g3 := r3.takeWhile (fun c => !(c == '\n'))
          if g3.isEmpty then none else some (String.mk g1, String.mk g3)
        else none

/-- Leftmost match of the fan regular expression: try every start
position in order, as `regexp.FindStringSubmatch` does. -/
def fanRegexFind : List Char → Option (String × String)
  | [] => none
  | c :: cs =>
    match fanMatchAt (c :: cs) with
    | some r => some r
    | none => fanRegexFind cs

/-- Samples appended for one fan record (`hwCollector.collectFanInfo`
loop body after label derivation): the two boolean status samples, then
the optional speed sample. -/
def fanMetricsForKey (fanName fanSlot : String) (data : List (String × String)) :
    List Metric :=
  [⟨hwFanOperationalStatusD, boolGauge (lookupD data "status"), [fanName, fanSlot]⟩,
   ⟨hwFanAvailableStatusD, boolGauge (lookupD data "presence"), [fanName, fanSlot]⟩]
  ++ optMetric hwFanRpmD (lookupD data "speed") [fanName, fanSlot]

/-- Label derivation and assembly for one fan key and its fetched
record: default name `strings.Split(fanKey, "|")[1]` (panic when the key
holds no bar, modelled as `none`) with slot "0"; the regex result, when
the key matches, overrides both; a `drawer_name` field other than "N/A"
overrides the slot. -/
def fanKeyMetrics (key : String) (data : List (String × String)) :
    Option (List Metric) :=
  match (goSplit key '|').get? 1 with
  | none => none
  | some fallbackName =>
    let p : String × String :=
      match fanRegexFind key.data with
      | some r => r
      | none => ("0", fallbackName)
    let fanSlot : String :=
      match data.lookup "drawer_name" with
      | some v => if v != "N/A" then v else p.1
      | none => p.1
    some (fanMetricsForKey (match fanRegexFind key.data with
      | some r => r.2
      | none => fallbackName) fanSlot data)

/-- Per-key loop of `hwCollector.collectFanInfo`: the key split (panic
point) runs before the fetch; a fetch error stops the loop keeping the
samples appended so far. -/
def collectFanInfoLoop (store : RedisStore) : List String → List Metric × SubResult
  | [] => ([], .ok)
  | key :: rest =>
    match (goSplit key '|').get? 1 with
    | none => ([], .panicked)
    | some _ =>
      match store.hgetAllFromDb "STATE_DB" key with
      | .error e => ([], .failed e)
      | .ok data =>
        match fanKeyMetrics key data with
        | none => ([], .panicked)
        | some ms =>
          let (more, r) := collectFanInfoLoop store rest
          (ms ++ more, r)

/-- `hwCollector.collectFanInfo`: list the `FAN_INFO|*` keys of
STATE_DB, then process each key. -/
def collectFanInfo (store : RedisStore) : List Metric × SubResult :=
  match store.keysFromDb "STATE_DB" "FAN_INFO|*" with
  | .error e => ([], .failed e)
  | .ok keys => collectFanInfoLoop store keys

/-- Per-key loop of `hwCollector.collectChassisInfo`:
`strings.Split(chassisKey, "|")[1]` (panic point), the fetch, then one
info sample per chassis record. -/
def collectChassisInfoLoop (store : RedisStore) : List String → List Metric × SubResult
  | [] => ([], .ok)
  | key :: rest =>
    match (goSplit key '|').get? 1 with
    | none => ([], .panicked)
    | some chassisId =>
      match store.hgetAllFromDb "STATE_DB" key with
      | .error e => ([], .failed e)
      | .ok data =>
        let (more, r) := collectChassisInfoLoop store rest
        (⟨hwChassisInfoD, 1,
          [chassisId, lookupD data "psu_num", lookupD data "serial", lookupD data "model"]⟩
          :: more, r)

/-- `hwCollector.collectChassisInfo`: list the `CHASSIS_INFO|*` keys of
STATE_DB, then process each key. -/
def collectChassisInfo (store : RedisStore) : List Metric × SubResult :=
  match store.keysFromDb "STATE_DB" "CHASSIS_INFO|*" with
  | .error e => ([], .failed e)
  | .ok keys => collectChassisInfoLoop store keys

/-- `hwCollector.scrapeMetrics`: on client-initialization failure the
state is untouched; otherwise the cache is reset to empty and the three
sub-collections run in order, each failure aborting with its wrapped
message (the fan wrapper repeats the psu text, as in the source); on
success the scrape time is recorded and the duration sample appended.
`none` models a panic unwinding out of the scrape. -/
def hw_scrapeMetrics (conn : Except String RedisStore) (now : Nat) (dur : Rat)
    (s : CollectorState) : Option (CollectorState × Option String) :=
  match conn with
  | .error e => some (s, some ("redis client initialization failed: " ++ e))
  | .ok store =>
    match collectPsuInfo store with
    | (_, .panicked) => none
    | (ms, .failed e) =>
      some (⟨ms, s.lastScrapeTime⟩, some ("hw psu info collection failed: " ++ e))
    | (ms, .ok) =>
      match collectFanInfo store with
      | (_, .panicked) => none
      | (ms2, .failed e) =>
        some (⟨ms ++ ms2, s.lastScrapeTime⟩, some ("hw psu info collection failed: " ++ e))
      | (ms2, .ok) =>
        match collectChassisInfo store with
        | (_, .panicked) => none
        | (ms3, .failed e) =>
          some (⟨ms ++ ms2 ++ ms3, s.lastScrapeTime⟩,
            some ("hw chassis info collection failed: " ++ e))
        | (ms3, .ok) =>
          some (⟨ms ++ ms2 ++ ms3 ++ [⟨hwScrapeDurationD, dur, []⟩], some now⟩, none)

/-- The TTL freshness test `time.Since(lastScrapeTime) < 15s`; the
`time.Time` zero value of a fresh collector is never fresh. -/
def cacheFresh (last : Option Nat) (now : Nat) : Bool :=
  match last with
  | some t => now - t < 15
  | none => false

/-- `hwCollector.Collect`: serve the cache when fresh; otherwise scrape,
append the success indicator (1, or 0 when the scrape returned an
error), and emit the whole cached list.  `none` models a panic. -/
def hw_Collect (conn : Except String RedisStore) (now : Nat) (dur : Rat)
    (s : CollectorState) : Option (CollectorState × List Metric) :=
  if cacheFresh s.lastScrapeTime now then
    some (s, s.cachedMetrics)
  else
    match hw_scrapeMetrics conn now dur s with
    | none => none
    | some (s1, err) =>
      let success : Rat := match err with | some _ => 0 | none => 1
      let s2 : CollectorState :=
        ⟨s1.cachedMetrics ++ [⟨hwCollectorSuccessD, success, []⟩], s1.lastScrapeTime⟩
      some (s2, s2.cachedMetrics)

/-- The resource samples for one field of the CRM:STATS hash: the
`crm_stats_` leader and the `_available` / `_used` trailer are trimmed
off to form the resource label (`crmCollector.collectCrmStatsCounters`
loop body, after the value parsed). -/
def crmStatMetrics (stat : String) (v : Rat) : List Metric :=
  (if goHasSuffix stat "available" then
    [⟨crmResourceAvailableD, v, [trimSuf (trimPre stat "crm_stats_") "_available"]⟩]
   else [])
  ++ (if goHasSuffix stat "used" then
    [⟨crmResourceUsedD, v, [trimSuf (trimPre stat "crm_stats_") "_used"]⟩]
   else [])

/-- `crmCollector.collectCrmStatsCounters`: a value that fails coercion
aborts the whole pass with a value-parse error; otherwise each field
contributes its resource samples. -/
def collectCrmStatsCounters : List (String × String) → List Metric × SubResult
  | [] => ([], .ok)
  | (stat, value) :: rest =>
    match parseFloat value with
    | none => ([], .failed "value parse failed")
    | some v =>
      let (more, r) := collectCrmStatsCounters rest
      (crmStatMetrics stat v ++ more, r)

/-- The ACL resource samples for one field of an ACL_STATS hash
(`crmCollector.collectCrmAclStats` inner loop body). -/
def crmAclStatMetrics (aclTarget stat : String) (v : Rat) : List Metric :=
  (if goHasSuffix stat "available" then
    [⟨crmAclResourceAvailableD, v, [aclTarget, trimSuf (trimPre stat "crm_stats_") "_available"]⟩]
   else [])
  ++ (if goHasSuffix stat "used" then
    [⟨crmAclResourceUsedD, v, [aclTarget, trimSuf (trimPre stat "crm_stats_") "_used"]⟩]
   else [])

/-- Inner loop of `crmCollector.collectCrmAclStats` over one fetched
ACL_STATS hash: a parse failure aborts with a value-parse error. -/
def collectCrmAclLoop (aclTarget : String) :
    List (String × String) → List Metric × SubResult
  | [] => ([], .ok)
  | (stat, value) :: rest =>
    match parseFloat value with
    | none => ([], .failed "value parse failed")
    | some v =>
      let (more, r) := collectCrmAclLoop aclTarget rest
      (crmAclStatMetrics aclTarget stat v ++ more, r)

/-- Per-key loop of `crmCollector.collectCrmAclStats`: the target label
is `strings.ToLower(strings.Join(strings.Split(key, ":")[2:], "_"))`
(the slice panics when the split yields fewer than two parts); a fetch
error aborts with a wrapped redis-read error. -/
def collectCrmAclKeysLoop (store : RedisStore) : List String → List Metric × SubResult
  | [] => ([], .ok)
  | key :: rest =>
    let parts := goSplit key ':'
    if parts.length < 2 then ([], .panicked)
    else
      let aclTarget := goToLower (String.intercalate "_" (parts.drop 2))
      match store.hgetAllFromDb "COUNTERS_DB" key with
      | .error e => ([], .failed ("redis read failed: " ++ e))
      | .ok stats =>
        match collectCrmAclLoop aclTarget stats with
        | (_, .panicked) => ([], .panicked)
        | (ms, .failed e) => (ms, .failed e)
        | (ms, .ok) =>
          let (more, r) := collectCrmAclKeysLoop store rest
          (ms ++ more, r)

/-- `crmCollector.collectCrmAclStats`: list the `CRM:ACL_STATS:*` keys
of COUNTERS_DB, then process each key. -/
def collectCrmAclStats (store : RedisStore) : List Metric × SubResult :=
  match store.keysFromDb "COUNTERS_DB" "CRM:ACL_STATS:*" with
  | .error e => ([], .failed ("redis read failed: " ++ e))
  | .ok keys => collectCrmAclKeysLoop store keys

/-- `crmCollector.scrapeMetrics`: on client-initialization failure the
state is untouched; otherwise the cache is reset, the CRM:STATS hash is
fetched and its counters collected, then the ACL stats; each failure
aborts with its wrapped message; on success the scrape time is recorded
and the duration sample appended. -/
def crm_scrapeMetrics (conn : Except String RedisStore) (now : Nat) (dur : Rat)
    (s : CollectorState) : Option (CollectorState × Option String) :=
  match conn with
  | .error e => some (s, some ("redis client initialization failed: " ++ e))
  | .ok store =>
    match store.hgetAllFromDb "COUNTERS_DB" "CRM:STATS" with
    | .error e => some (⟨[], s.lastScrapeTime⟩, some ("redis read failed: " ++ e))
    | .ok crmStats =>
      match collectCrmStatsCounters crmStats with
      | (_, .panicked) => none
      | (ms, .failed e) =>
        some (⟨ms, s.lastScrapeTime⟩, some ("crm stats collection failed: " ++ e))
      | (ms, .ok) =>
        match collectCrmAclStats store with
        | (_, .panicked) => none
        | (ms2, .failed e) =>
          some (⟨ms ++ ms2, s.lastScrapeTime⟩, some ("crm acl stats collection failed: " ++ e))
        | (ms2, .ok) =>
          some (⟨ms ++ ms2 ++ [⟨crmScrapeDurationD, dur, []⟩], some now⟩, none)

/-- `crmCollector.Collect`: serve the cache when fresh; otherwise
scrape, append the success indicator, and emit the whole cached list. -/
def crm_Collect (conn : Except String RedisStore) (now : Nat) (dur : Rat)
    (s : CollectorState) : Option (CollectorState × List Metric) :=
  if cacheFresh s.lastScrapeTime now then
    some (s, s.cachedMetrics)
  else
    match crm_scrapeMetrics conn now dur s with
    | none => none
    | some (s1, err) =>
      let success : Rat := match err with | some _ => 0 | none => 1
      let s2 : CollectorState :=
        ⟨s1.cachedMetrics ++ [⟨crmCollectorSuccessD, success, []⟩], s1.lastScrapeTime⟩
      some (s2, s2.cachedMetrics)

/-- The state of a freshly constructed collector: empty cache, zero
last-scrape time. -/
def initialState : CollectorState := ⟨[], none⟩

/-- A store whose every operation fails: the connection is established
lazily by the go-redis client, so a dead store surfaces as an error on
the first KEYS or HGETALL call. -/
def failStoreAll : RedisStore :=
  ⟨fun _ _ => .error "connection refused", fun _ _ => .error "connection refused"⟩

/-- A reachable store with no matching keys and empty hashes. -/
def emptyOkStore : RedisStore := ⟨fun _ _ => .ok [], fun _ _ => .ok []⟩

/-- A store on which the fan key listing fails while the psu listing
succeeds (empty). -/
def fanFailStore : RedisStore :=
  ⟨fun _ p => if p == "PSU_INFO|PSU*" then .ok [] else .error "boom",
   fun _ _ => .ok []⟩

/-- A store whose CRM:STATS hash holds one malformed counter value. -/
def badCrmStore : RedisStore :=
  ⟨fun _ _ => .ok [],
   fun _ k => if k == "CRM:STATS" then .ok [("crm_stats_ipv4_route_used", "abc")] else .ok []⟩

/-- A store whose CRM:STATS hash holds the ipv4_route counters of the
spec's Scenario C. -/
def ipv4RouteStore : RedisStore :=
  ⟨fun _ _ => .ok [],
   fun _ k => if k == "CRM:STATS" then
      .ok [("crm_stats_ipv4_route_available", "1000"), ("crm_stats_ipv4_route_used", "42")]
    else .ok []⟩

/-- A store listing one PSU key that holds no space character. -/
def spacelessPsuStore : RedisStore :=
  ⟨fun _ p => if p == "PSU_INFO|PSU*" then .ok ["PSU_INFO|PSU0"] else .ok [],
   fun _ _ => .ok []⟩

/-- The hw success indicator at gauge 0. -/
def hwSuccess0 : Metric := ⟨hwCollectorSuccessD, 0, []⟩

/-- The crm success indicator at gauge 0. -/
def crmSuccess0 : Metric := ⟨crmCollectorSuccessD, 0, []⟩

/-- Modelled from the spec's words, for comparison with the code's
boolean coercion: a boolean-flag field is 1 exactly when the raw string
equals "true" under case-insensitive comparison, and 0 for every other
value, including an absent field. -/
def specTrueFlag (raw : Option String) : Rat :=
  match raw with
  | none => 0
  | some s => if goToLower s = goToLower "true" then 1 else 0


/-- The five optional PSU samples: descriptor and source field, in
emission order (`hwCollector.collectPsuInfo` appends each only when the
field value parses). -/
def psuOptionalFields : List (String × String) :=
  [(hwPsuInputVoltageVoltsD, "input_voltage"),
   (hwPsuInputCurrentAmperesD, "input_current"),
   (hwPsuOutputVoltageVoltsD, "output_voltage"),
   (hwPsuOutputCurrentAmperesD, "output_current"),
   (hwPsuTemperatureCelsiusD, "temp")]

/-- The given store with every successfully fetched hash emptied: what a
collector would see if every record lost all its field values.  A scrape
outcome unchanged under scrubbing is independent of the field values. -/
def scrubHashes (store : RedisStore) : RedisStore :=
  ⟨store.keysFromDb, fun db k =>
    match store.hgetAllFromDb db k with
    | .error e => .error e
    | .ok _ => .ok []⟩

/-- The code's boolean coercion of a Go map read agrees with the spec's
case-insensitive comparison against "true", absent fields included. -/
theorem boolGauge_spec (data : List (String × String)) (k : String) :
    boolGauge (lookupD data k) = specTrueFlag (data.lookup k) := by
  unfold boolGauge lookupD specTrueFlag
  cases h : data.lookup k with
  | none =>
    simp only [h, Option.getD_none]
    have : ¬(goToLower "" == "true") = true := by decide
    simp [this]
  | some s =>
    have ht : goToLower "true" = "true" := by decide
    simp only [h, Option.getD_some, ht]
    by_cases hs : goToLower s = "true"
    · simp [hs]
    · simp [hs]

/-- Whatever path `Collect` takes, the emitted list is exactly the
cached list of the state it returns. -/
theorem hw_Collect_emits_cache (conn : Except String RedisStore) (now : Nat)
    (dur : Rat) (s st : CollectorState) (out : List Metric)
    (h : hw_Collect conn now dur s = some (st, out)) : out = st.cachedMetrics := by
  unfold hw_Collect at h
  split at h
  · simp only [Option.some.injEq, Prod.mk.injEq] at h
    obtain ⟨rfl, rfl⟩ := h
    rfl
  · split at h
    · exact absurd h (by simp)
    · simp only [Option.some.injEq, Prod.mk.injEq] at h
      obtain ⟨rfl, rfl⟩ := h
      rfl

/-- Whatever path the crm `Collect` takes, the emitted list is exactly
the cached list of the state it returns. -/
theorem crm_Collect_emits_cache (conn : Except String RedisStore) (now : Nat)
    (dur : Rat) (s st : CollectorState) (out : List Metric)
    (h : crm_Collect conn now dur s = some (st, out)) : out = st.cachedMetrics := by
  unfold crm_Collect at h
  split at h
  · simp only [Option.some.injEq, Prod.mk.injEq] at h
    obtain ⟨rfl, rfl⟩ := h
    rfl
  · split at h
    · exact absurd h (by simp)
    · simp only [Option.some.injEq, Prod.mk.injEq] at h
      obtain ⟨rfl, rfl⟩ := h
      rfl

/-- Splitting a list that holds no separator yields the single whole part. -/
theorem goSplitChar_no_sep (sep : Char) (l : List Char) (h : sep ∉ l) :
    goSplitChar sep l = [l] := by
  induction l with
  | nil => rfl
  | cons c cs ih =>
    have hc : ¬(c == sep) = true := by
      simp only [beq_iff_eq]
      intro hq
      exact h (hq ▸ List.mem_cons_self c cs)
    have hcs : sep ∉ cs := fun hm => h (List.mem_cons_of_mem c hm)
    unfold goSplitChar
    rw [ih hcs]
    simp [hc]

/-- The split of a list never yields an empty part list. -/
theorem goSplitChar_ne_nil (sep : Char) (l : List Char) :
    goSplitChar sep l ≠ [] := by
  cases l with
  | nil => simp [goSplitChar]
  | cons c cs =>
    unfold goSplitChar
    cases hr : goSplitChar sep cs with
    | nil => simp
    | cons p ps =>
      by_cases hc : (c == sep) = true <;> simp [hc]

/-- Splitting a list that holds the separator yields at least two parts. -/
theorem goSplitChar_len_two (sep : Char) (l : List Char) (h : sep ∈ l) :
    2 ≤ (goSplitChar sep l).length := by
  induction l with
  | nil => cases h
  | cons c cs ih =>
    unfold goSplitChar
    cases hr : goSplitChar sep cs with
    | nil => exact absurd hr (goSplitChar_ne_nil sep cs)
    | cons p ps =>
      by_cases hc : (c == sep) = true
      · simp [hc]
      · have hcs : sep ∈ cs := by
          rcases List.mem_cons.mp h with h1 | h2
          · exact absurd (beq_iff_eq.mpr h1.symm) hc
          · exact h2
        have := ih hcs
        rw [hr] at this
        simp only [List.length_cons] at this ⊢
        simp [hc]
        omega


/-- The psu loop's outcome (ok / failed / panicked) does not change when
every record's field values are scrubbed away: it depends only on the
key shapes and the store's errors, never on field contents. -/
theorem psuLoop_snd_scrub (store : RedisStore) (keys : List String) :
    (collectPsuInfoLoop (scrubHashes store) keys).2 = (collectPsuInfoLoop store keys).2 := by
  induction keys with
  | nil => rfl
  | cons k ks ih =>
    unfold collectPsuInfoLoop
    cases hsp : (goSplit k ' ').get? 1 with
    | none => rfl
    | some psuId =>
      have hscrub : (scrubHashes store).hgetAllFromDb "STATE_DB" k
          = match store.hgetAllFromDb "STATE_DB" k with
            | .error e => .error e
            | .ok _ => .ok [] := rfl
      cases hg : store.hgetAllFromDb "STATE_DB" k with
      | error e => simp [hscrub, hg]
      | ok data =>
        rcases h1 : collectPsuInfoLoop (scrubHashes store) ks with ⟨ms1, r1⟩
        rcases h2 : collectPsuInfoLoop store ks with ⟨ms2, r2⟩
        have hr : r1 = r2 := by
          have := ih
          rw [h1, h2] at this
          exact this
        simp [hscrub, hg, h1, h2, hr]

/-- A fan key whose bar split has a second part always assembles a
record (the per-key step cannot panic past the split). -/
theorem fan_split_some (key : String) (fb : String) (data : List (String × String))
    (h : (goSplit key '|').get? 1 = some fb) :
    fanKeyMetrics key data
      = some (fanMetricsForKey (match fanRegexFind key.data with
          | some r => r.2
          | none => fb)
          (match data.lookup "drawer_name" with
           | some v => if v != "N/A" then v
             else (match fanRegexFind key.data with
               | some r => r
               | none => ("0", fb)).1
           | none => (match fanRegexFind key.data with
               | some r => r
               | none => ("0", fb)).1) data) := by
  unfold fanKeyMetrics
  rw [h]

/-- The fan loop's outcome does not change when every record's field
values are scrubbed away. -/
theorem fanLoop_snd_scrub (store : RedisStore) (keys : List String) :
    (collectFanInfoLoop (scrubHashes store) keys).2 = (collectFanInfoLoop store keys).2 := by
  induction keys with
  | nil => rfl
  | cons k ks ih =>
    unfold collectFanInfoLoop
    cases hsp : (goSplit k '|').get? 1 with
    | none => rfl
    | some fb =>
      have hscrub : (scrubHashes store).hgetAllFromDb "STATE_DB" k
          = match store.hgetAllFromDb "STATE_DB" k with
            | .error e => .error e
            | .ok _ => .ok [] := rfl
      cases hg : store.hgetAllFromDb "STATE_DB" k with
      | error e => simp [hscrub, hg]
      | ok data =>
        rcases h1 : collectFanInfoLoop (scrubHashes store) ks with ⟨ms1, r1⟩
        rcases h2 : collectFanInfoLoop store ks with ⟨ms2, r2⟩
        have hr : r1 = r2 := by
          have := ih
          rw [h1, h2] at this
          exact this
        simp [hscrub, hg, h1, h2, hr, fan_split_some k fb _ hsp]

/-- The chassis loop's outcome does not change when every record's field
values are scrubbed away. -/
theorem chassisLoop_snd_scrub (store : RedisStore) (keys : List String) :
    (collectChassisInfoLoop (scrubHashes store) keys).2
      = (collectChassisInfoLoop store keys).2 := by
  induction keys with
  | nil => rfl
  | cons k ks ih =>
    unfold collectChassisInfoLoop
    cases hsp : (goSplit k '|').get? 1 with
    | none => rfl
    | some cid =>
      have hscrub : (scrubHashes store).hgetAllFromDb "STATE_DB" k
          = match store.hgetAllFromDb "STATE_DB" k with
            | .error e => .error e
            | .ok _ => .ok [] := rfl
      cases hg : store.hgetAllFromDb "STATE_DB" k with
      | error e => simp [hscrub, hg]
      | ok data =>
        rcases h1 : collectChassisInfoLoop (scrubHashes store) ks with ⟨ms1, r1⟩
        rcases h2 : collectChassisInfoLoop store ks with ⟨ms2, r2⟩
        have hr : r1 = r2 := by
          have := ih
          rw [h1, h2] at this
          exact this
        simp [hscrub, hg, h1, h2, hr]

/-- `collectPsuInfo`'s outcome is field-value independent. -/
theorem psu_snd_scrub (store : RedisStore) :
    (collectPsuInfo (scrubHashes store)).2 = (collectPsuInfo store).2 := by
  unfold collectPsuInfo
  have hkeys : (scrubHashes store).keysFromDb = store.keysFromDb := rfl
  rw [hkeys]
  cases hk : store.keysFromDb "STATE_DB" "PSU_INFO|PSU*" with
  | error e => rfl
  | ok keys => exact psuLoop_snd_scrub store keys

/-- `collectFanInfo`'s outcome is field-value independent. -/
theorem fan_snd_scrub (store : RedisStore) :
    (collectFanInfo (scrubHashes store)).2 = (collectFanInfo store).2 := by
  unfold collectFanInfo
  have hkeys : (scrubHashes store).keysFromDb = store.keysFromDb := rfl
  rw [hkeys]
  cases hk : store.keysFromDb "STATE_DB" "FAN_INFO|*" with
  | error e => rfl
  | ok keys => exact fanLoop_snd_scrub store keys

/-- `collectChassisInfo`'s outcome is field-value independent. -/
theorem chassis_snd_scrub (store : RedisStore) :
    (collectChassisInfo (scrubHashes store)).2 = (collectChassisInfo store).2 := by
  unfold collectChassisInfo
  have hkeys : (scrubHashes store).keysFromDb = store.keysFromDb := rfl
  rw [hkeys]
  cases hk : store.keysFromDb "STATE_DB" "CHASSIS_INFO|*" with
  | error e => rfl
  | ok keys => exact chassisLoop_snd_scrub store keys

/-- The hardware scrape's error outcome (which wrapped error, or none,
or a panic) is exactly the same whether the records carry their field
values or none at all: no field value — malformed or otherwise — can
influence whether the scrape fails. -/
theorem hw_scrape_err_scrub (store : RedisStore) (now : Nat) (dur : Rat)
    (s : CollectorState) :
    (hw_scrapeMetrics (.ok (scrubHashes store)) now dur s).map Prod.snd
      = (hw_scrapeMetrics (.ok store) now dur s).map Prod.snd := by
  simp only [hw_scrapeMetrics]
  rcases h1 : collectPsuInfo store with ⟨ms1, r1⟩
  rcases h1p : collectPsuInfo (scrubHashes store) with ⟨ms1p, r1p⟩
  have hp : r1p = r1 := by
    have h := psu_snd_scrub store
    rw [h1, h1p] at h
    exact h
  subst hp
  cases r1p with
  | panicked => rfl
  | failed e => rfl
  | ok =>
    rcases h2 : collectFanInfo store with ⟨ms2, r2⟩
    rcases h2p : collectFanInfo (scrubHashes store) with ⟨ms2p, r2p⟩
    have hf : r2p = r2 := by
      have h := fan_snd_scrub store
      rw [h2, h2p] at h
      exact h
    subst hf
    cases r2p with
    | panicked => rfl
    | failed e => rfl
    | ok =>
      rcases h3 : collectChassisInfo store with ⟨ms3, r3⟩
      rcases h3p : collectChassisInfo (scrubHashes store) with ⟨ms3p, r3p⟩
      have hc : r3p = r3 := by
        have h := chassis_snd_scrub store
        rw [h3, h3p] at h
        exact h
      subst hc
      cases r3p with
      | panicked => rfl
      | failed e => rfl
      | ok => rfl

/-- An optional sample under a foreign descriptor never survives a
filter for that descriptor. -/
theorem optMetric_filter_ne (dd raw : String) (l : List String) (d : String)
    (h : (dd == d) = false) :
    (optMetric dd raw l).filter (fun m => m.desc == d) = [] := by
  unfold optMetric
  cases parseFloat raw <;> simp [h]

/-- Filtering an optional sample for its own descriptor yields exactly
the one sample when the raw value parses, and nothing when it fails. -/
theorem optMetric_filter_eq (d raw : String) (l : List String) :
    (optMetric d raw l).filter (fun m => m.desc == d)
      = (match parseFloat raw with
         | some v => [(⟨d, v, l⟩ : Metric)]
         | none => []) := by
  unfold optMetric
  cases h : parseFloat raw <;> simp

/-- C1: the claim says that after at least one successful scrape, a
later failing Collect still emits the previous successful samples plus
success=0, never an empty or partial set.  The code violates this: a
hardware collector holding one cached sample from a prior success
(scrape time 0) collects at time 100 against a store whose key listing
fails after the client initialized; `scrapeMetrics` has already reset
the cache, so Collect emits exactly one sample, the success=0
indicator, and the previous sample is gone. -/
theorem C1_scan_failure_discards_previous_cache :
    hw_Collect (.ok failStoreAll) 100 0
      ⟨[⟨hwPsuInfoD, 1, ["PSU 1", "serial", "name", "model"]⟩], some 0⟩
      = some (⟨[hwSuccess0], some 0⟩, [hwSuccess0]) := by decide

/-- C9: the claim says each sub-collection failure aborts the scrape
with a wrapped error identifying the failing sub-collection.  On a
store where the psu listing succeeds and the fan listing fails with
"boom", the fan sub-collection is the one that failed, yet the scrape
error reads "hw psu info collection failed: boom" — the fan branch
reuses the psu wrapper text. -/
theorem C9_fan_failure_mislabeled :
    collectPsuInfo fanFailStore = ([], .ok) ∧
    collectFanInfo fanFailStore = ([], .failed "boom") ∧
    hw_scrapeMetrics (.ok fanFailStore) 100 0 initialState
      = some (⟨[], none⟩, some "hw psu info collection failed: boom") := by decide

/-- C2 counterexample: the claim says a coercion failure never causes a
domain-level Scrape error in any domain.  In the resource-counters
domain a single malformed counter value aborts the whole scrape: the
counters pass fails with "value parse failed" and `scrapeMetrics`
returns the wrapped domain error. -/
theorem C2_counterexample_crm_parse_escalates :
    collectCrmStatsCounters [("crm_stats_ipv4_route_used", "abc")]
      = ([], .failed "value parse failed") ∧
    crm_scrapeMetrics (.ok badCrmStore) 100 0 initialState
      = some (⟨[], none⟩, some "crm stats collection failed: value parse failed") := by
  decide

/-- C2 amended: in the hardware domain a coercion failure on one raw
field omits exactly that single metric sample and nothing else, and is
never escalated: for every PSU record the sample count is 3 plus the
number of optional fields that parse, and each optional descriptor is
carried by exactly one sample with the parsed value when its field
parses and by no sample when coercion fails; likewise every fan record
carries its two status samples plus the speed sample exactly when speed
parses; and the hardware scrape's error outcome is identical with all
field values scrubbed away, so no field value can cause a domain-level
scrape error.  In the resource-counters domain the opposite holds: any
coercion failure aborts the counters pass with a value-parse error. -/
theorem C2_amended_coercion_isolation :
    (∀ psuId data,
      (psuMetricsForKey psuId data).length
        = 3 + psuOptionalFields.countP
            (fun q => (parseFloat (lookupD data q.2)).isSome)) ∧
    (∀ psuId data d f, (d, f) ∈ psuOptionalFields →
      (psuMetricsForKey psuId data).filter (fun m => m.desc == d)
        = (match parseFloat (lookupD data f) with
           | some v => [(⟨d, v, [psuId]⟩ : Metric)]
           | none => [])) ∧
    (∀ nm slot data,
      (fanMetricsForKey nm slot data).length
        = 2 + (if (parseFloat (lookupD data "speed")).isSome then 1 else 0)) ∧
    (∀ nm slot data,
      (fanMetricsForKey nm slot data).filter (fun m => m.desc == hwFanRpmD)
        = (match parseFloat (lookupD data "speed") with
           | some v => [(⟨hwFanRpmD, v, [nm, slot]⟩ : Metric)]
           | none => [])) ∧
    (∀ store now dur s,
      (hw_scrapeMetrics (.ok (scrubHashes store)) now dur s).map Prod.snd
        = (hw_scrapeMetrics (.ok store) now dur s).map Prod.snd) ∧
    (∀ stat v rest, parseFloat v = none →
      collectCrmStatsCounters ((stat, v) :: rest) = ([], .failed "value parse failed")) := by
  refine ⟨?_, ?_, ?_, ?_, ?_, ?_⟩
  · intro psuId data
    unfold psuMetricsForKey optMetric psuOptionalFields
    cases h1 : parseFloat (lookupD data "input_voltage") <;>
    cases h2 : parseFloat (lookupD data "input_current") <;>
    cases h3 : parseFloat (lookupD data "output_voltage") <;>
    cases h4 : parseFloat (lookupD data "output_current") <;>
    cases h5 : parseFloat (lookupD data "temp") <;>
      simp [h1, h2, h3, h4, h5, List.countP_cons, List.countP_nil]
  · intro psuId data d f hmem
    unfold psuOptionalFields at hmem
    fin_cases hmem <;>
    · unfold psuMetricsForKey
      simp [List.filter_append, List.filter_cons, optMetric_filter_ne, optMetric_filter_eq,
        hwPsuInfoD, hwPsuOperationalStatusD, hwPsuAvailableStatusD,
        hwPsuInputVoltageVoltsD, hwPsuInputCurrentAmperesD, hwPsuOutputVoltageVoltsD,
        hwPsuOutputCurrentAmperesD, hwPsuTemperatureCelsiusD]
  · intro nm slot data
    unfold fanMetricsForKey optMetric
    cases h : parseFloat (lookupD data "speed") <;> simp
  · intro nm slot data
    unfold fanMetricsForKey
    simp [List.filter_append, List.filter_cons, optMetric_filter_eq,
      hwFanOperationalStatusD, hwFanAvailableStatusD, hwFanRpmD]
  · exact fun store now dur s => hw_scrape_err_scrub store now dur s
  · intro stat v rest h
    unfold collectCrmStatsCounters
    rw [h]

theorem C2_amended_coercion_isolation_witness :
    ((hwPsuInputCurrentAmperesD, "input_current") ∈ psuOptionalFields) ∧
    (psuMetricsForKey "PSU 1" [("input_current", "bogus"), ("input_voltage", "12")]).filter
        (fun m => m.desc == hwPsuInputCurrentAmperesD) = [] ∧
    parseFloat "abc" = none ∧
    collectCrmStatsCounters [("crm_stats_x_used", "abc")]
      = ([], .failed "value parse failed") :=
  ⟨by decide,
    (C2_amended_coercion_isolation.2.1 "PSU 1" [("input_current", "bogus"), ("input_voltage", "12")]
        hwPsuInputCurrentAmperesD "input_current" (by decide)).trans (by decide),
    by decide,
    C2_amended_coercion_isolation.2.2.2.2.2 "crm_stats_x_used" "abc" [] (by decide)⟩

/-- C6: the counters hash of Scenario C yields the available and used
samples labelled ipv4_route with values 1000 and 42, the field name
stripped of the crm_stats_ leader and the _available / _used trailer;
a full crm scrape over a store serving that hash produces exactly those
two samples followed by the duration sample, with no error. -/
theorem C6_ipv4_route_counters :
    collectCrmStatsCounters
      [("crm_stats_ipv4_route_available", "1000"), ("crm_stats_ipv4_route_used", "42")]
      = ([⟨crmResourceAvailableD, 1000, ["ipv4_route"]⟩,
          ⟨crmResourceUsedD, 42, ["ipv4_route"]⟩], .ok) ∧
    crm_scrapeMetrics (.ok ipv4RouteStore) 100 0 initialState
      = some (⟨[⟨crmResourceAvailableD, 1000, ["ipv4_route"]⟩,
                ⟨crmResourceUsedD, 42, ["ipv4_route"]⟩,
                ⟨crmScrapeDurationD, 0, []⟩], some 100⟩, none) := by decide

/-- C3 counterexample: the claim says any two Collect calls less than
15s apart emit identical sequences with no store access.  On a fresh
hardware collector whose client initialization fails, a first call at
time 0 emits one success=0 sample, leaves the scrape timestamp at its
zero value, and a second call 5 seconds later scrapes again and emits
two success=0 samples — a different sequence. -/
theorem C3_counterexample_failed_first_call :
    hw_Collect (.error "down") 0 0 initialState
      = some (⟨[hwSuccess0], none⟩, [hwSuccess0]) ∧
    hw_Collect (.error "down") 5 0 ⟨[hwSuccess0], none⟩
      = some (⟨[hwSuccess0, hwSuccess0], none⟩, [hwSuccess0, hwSuccess0]) ∧
    ([hwSuccess0, hwSuccess0] : List Metric) ≠ [hwSuccess0] := by decide

/-- C3 amended: when the first Collect call leaves a cache timestamp
that is still within the 15s TTL at the second call's time (that is,
the first call's scrape succeeded, or it was itself served from a fresh
cache), the second call emits exactly the first call's sequence, leaves
the state unchanged, and its result is the same for every store — it
reads nothing from the store.  This holds for the hardware and the
resource-counters collector alike. -/
theorem C3_amended_fresh_cache_identical (conn conn2 : Except String RedisStore)
    (now1 now2 : Nat) (dur dur2 : Rat) (s st : CollectorState) (out : List Metric) :
    (hw_Collect conn now1 dur s = some (st, out) →
      cacheFresh st.lastScrapeTime now2 = true →
      hw_Collect conn2 now2 dur2 st = some (st, out)) ∧
    (crm_Collect conn now1 dur s = some (st, out) →
      cacheFresh st.lastScrapeTime now2 = true →
      crm_Collect conn2 now2 dur2 st = some (st, out)) := by
  constructor
  · intro h1 h2
    have hout := hw_Collect_emits_cache conn now1 dur s st out h1
    unfold hw_Collect
    rw [h2, if_pos rfl, hout]
  · intro h1 h2
    have hout := crm_Collect_emits_cache conn now1 dur s st out h1
    unfold crm_Collect
    rw [h2, if_pos rfl, hout]

theorem C3_amended_fresh_cache_identical_witness :
    hw_Collect (.ok emptyOkStore) 100 0 initialState
      = some (⟨[⟨hwScrapeDurationD, 0, []⟩, ⟨hwCollectorSuccessD, 1, []⟩], some 100⟩,
              [⟨hwScrapeDurationD, 0, []⟩, ⟨hwCollectorSuccessD, 1, []⟩]) ∧
    cacheFresh (some 100) 105 = true ∧
    hw_Collect (.ok failStoreAll) 105 0
      ⟨[⟨hwScrapeDurationD, 0, []⟩, ⟨hwCollectorSuccessD, 1, []⟩], some 100⟩
      = some (⟨[⟨hwScrapeDurationD, 0, []⟩, ⟨hwCollectorSuccessD, 1, []⟩], some 100⟩,
              [⟨hwScrapeDurationD, 0, []⟩, ⟨hwCollectorSuccessD, 1, []⟩]) :=
  ⟨by decide, by decide,
    (C3_amended_fresh_cache_identical (.ok emptyOkStore) (.ok failStoreAll) 100 105 0 0
      initialState
      ⟨[⟨hwScrapeDurationD, 0, []⟩, ⟨hwCollectorSuccessD, 1, []⟩], some 100⟩
      [⟨hwScrapeDurationD, 0, []⟩, ⟨hwCollectorSuccessD, 1, []⟩]).1
      (by decide) (by decide)⟩

/-- C4: on a fresh (never-succeeded) collector whose store connection
fails during the first Collect call — whether the client initialization
itself fails, or the client initializes and the first store operation
fails — Collect emits exactly one sample, the success=0 indicator.
This holds for the hardware and the resource-counters collector. -/
theorem C4_fresh_failure_emits_single_success0 (e : String) (now : Nat) (dur : Rat)
    (store : RedisStore)
    (hk : store.keysFromDb "STATE_DB" "PSU_INFO|PSU*" = .error e)
    (hg : store.hgetAllFromDb "COUNTERS_DB" "CRM:STATS" = .error e) :
    hw_Collect (.error e) now dur initialState
      = some (⟨[hwSuccess0], none⟩, [hwSuccess0]) ∧
    hw_Collect (.ok store) now dur initialState
      = some (⟨[hwSuccess0], none⟩, [hwSuccess0]) ∧
    crm_Collect (.error e) now dur initialState
      = some (⟨[crmSuccess0], none⟩, [crmSuccess0]) ∧
    crm_Collect (.ok store) now dur initialState
      = some (⟨[crmSuccess0], none⟩, [crmSuccess0]) := by
  refine ⟨?_, ?_, ?_, ?_⟩
  · simp [hw_Collect, cacheFresh, initialState, hw_scrapeMetrics, hwSuccess0]
  · simp [hw_Collect, cacheFresh, initialState, hw_scrapeMetrics, collectPsuInfo, hk,
      hwSuccess0]
  · simp [crm_Collect, cacheFresh, initialState, crm_scrapeMetrics, crmSuccess0]
  · simp [crm_Collect, cacheFresh, initialState, crm_scrapeMetrics, hg, crmSuccess0]

theorem C4_fresh_failure_emits_single_success0_witness :
    failStoreAll.keysFromDb "STATE_DB" "PSU_INFO|PSU*" = .error "connection refused" ∧
    hw_Collect (.ok failStoreAll) 100 0 initialState
      = some (⟨[hwSuccess0], none⟩, [hwSuccess0]) ∧
    crm_Collect (.ok failStoreAll) 100 0 initialState
      = some (⟨[crmSuccess0], none⟩, [crmSuccess0]) :=
  ⟨rfl,
    (C4_fresh_failure_emits_single_success0 "connection refused" 100 0 failStoreAll
      rfl rfl).2.1,
    (C4_fresh_failure_emits_single_success0 "connection refused" 100 0 failStoreAll
      rfl rfl).2.2.2⟩

/-- Every sample assembled for a fan record carries the slot it was
given as its second label value. -/
theorem fanMetricsForKey_slot (nm slot : String) (data : List (String × String)) :
    (fanMetricsForKey nm slot data).all (fun m => m.labels.getD 1 "" == slot) = true := by
  unfold fanMetricsForKey optMetric
  cases parseFloat (lookupD data "speed") <;> simp [List.getD]

/-- C5: the fan label chain is first-match-wins.  The key
"FAN_INFO|PSU1-Fan1" is matched by the domain regex and yields
slot "PSU1" and name "Fan1"; the unmatched key "FAN_INFO|main" falls
back to the segment after the bar as the name with slot "0"; a
drawer_name field holding the placeholder "N/A" leaves the derived slot
in place; and for every key and record, a drawer_name field holding any
other value supersedes the derived slot in every emitted sample. -/
theorem C5_fan_label_precedence_chain :
    fanRegexFind "FAN_INFO|PSU1-Fan1".data = some ("PSU1", "Fan1") ∧
    fanKeyMetrics "FAN_INFO|PSU1-Fan1" []
      = some [⟨hwFanOperationalStatusD, 0, ["Fan1", "PSU1"]⟩,
              ⟨hwFanAvailableStatusD, 0, ["Fan1", "PSU1"]⟩] ∧
    fanKeyMetrics "FAN_INFO|main" []
      = some [⟨hwFanOperationalStatusD, 0, ["main", "0"]⟩,
              ⟨hwFanAvailableStatusD, 0, ["main", "0"]⟩] ∧
    fanKeyMetrics "FAN_INFO|PSU1-Fan1" [("drawer_name", "N/A")]
      = some [⟨hwFanOperationalStatusD, 0, ["Fan1", "PSU1"]⟩,
              ⟨hwFanAvailableStatusD, 0, ["Fan1", "PSU1"]⟩] ∧
    (∀ key data v ms, data.lookup "drawer_name" = some v → v ≠ "N/A" →
      fanKeyMetrics key data = some ms →
      ms.all (fun m => m.labels.getD 1 "" == v) = true) := by
  refine ⟨by decide, by decide, by decide, by decide, ?_⟩
  intro key data v ms hv hnv hms
  unfold fanKeyMetrics at hms
  rcases hsp : (goSplit key '|').get? 1 with _ | fb
  · rw [hsp] at hms
    exact absurd hms (by simp)
  · rw [hsp] at hms
    simp only [hv] at hms
    rw [if_pos (by simpa using hnv)] at hms
    simp only [Option.some.injEq] at hms
    rw [← hms]
    exact fanMetricsForKey_slot _ v data

theorem C5_fan_label_precedence_chain_witness :
    (([("drawer_name", "drawer9")] : List (String × String)).lookup "drawer_name"
      = some "drawer9") ∧
    fanKeyMetrics "FAN_INFO|PSU2 Fan3" [("drawer_name", "drawer9")]
      = some [⟨hwFanOperationalStatusD, 0, ["Fan3", "drawer9"]⟩,
              ⟨hwFanAvailableStatusD, 0, ["Fan3", "drawer9"]⟩] ∧
    ([⟨hwFanOperationalStatusD, 0, ["Fan3", "drawer9"]⟩,
      ⟨hwFanAvailableStatusD, 0, ["Fan3", "drawer9"]⟩] : List Metric).all
      (fun m => m.labels.getD 1 "" == "drawer9") = true :=
  ⟨by decide, by decide,
    C5_fan_label_precedence_chain.2.2.2.2 "FAN_INFO|PSU2 Fan3"
      [("drawer_name", "drawer9")] "drawer9"
      [⟨hwFanOperationalStatusD, 0, ["Fan3", "drawer9"]⟩,
       ⟨hwFanAvailableStatusD, 0, ["Fan3", "drawer9"]⟩]
      (by decide) (by decide) (by decide)⟩

/-- C7: for every record, the emitted operational-status and
available-status samples (PSU and fan alike) carry gauge 1 exactly when
the raw status / presence field equals "true" under case-insensitive
comparison, and 0 for every other raw value, an absent field included —
the code's coercion coincides with the spec-side `specTrueFlag`. -/
theorem C7_bool_flags_case_insensitive (psuId fanName fanSlot : String)
    (data : List (String × String)) :
    (psuMetricsForKey psuId data).get? 1
      = some ⟨hwPsuOperationalStatusD, specTrueFlag (data.lookup "status"), [psuId]⟩ ∧
    (psuMetricsForKey psuId data).get? 2
      = some ⟨hwPsuAvailableStatusD, specTrueFlag (data.lookup "presence"), [psuId]⟩ ∧
    (fanMetricsForKey fanName fanSlot data).get? 0
      = some ⟨hwFanOperationalStatusD, specTrueFlag (data.lookup "status"),
              [fanName, fanSlot]⟩ ∧
    (fanMetricsForKey fanName fanSlot data).get? 1
      = some ⟨hwFanAvailableStatusD, specTrueFlag (data.lookup "presence"),
              [fanName, fanSlot]⟩ := by
  refine ⟨?_, ?_, ?_, ?_⟩ <;>
    simp [psuMetricsForKey, fanMetricsForKey, boolGauge_spec, List.get?]

/-- C8: the scrape timestamp is a frame condition of failure: whenever
`scrapeMetrics` returns an error (hardware or resource-counters), the
returned state's lastScrapeTime equals the input state's, and whenever
it succeeds, the timestamp is set to the scrape time — so a Collect
call after a failure finds the cache as stale as before and scrapes
afresh. -/
theorem C8_failure_preserves_timestamp (conn : Except String RedisStore)
    (now : Nat) (dur : Rat) (s st : CollectorState) (e : String) :
    (hw_scrapeMetrics conn now dur s = some (st, some e) →
      st.lastScrapeTime = s.lastScrapeTime) ∧
    (hw_scrapeMetrics conn now dur s = some (st, none) →
      st.lastScrapeTime = some now) ∧
    (crm_scrapeMetrics conn now dur s = some (st, some e) →
      st.lastScrapeTime = s.lastScrapeTime) ∧
    (crm_scrapeMetrics conn now dur s = some (st, none) →
      st.lastScrapeTime = some now) := by
  refine ⟨?_, ?_, ?_, ?_⟩ <;>
    · intro h
      first
        | unfold hw_scrapeMetrics at h
        | unfold crm_scrapeMetrics at h
      repeat' split at h
      all_goals
        try simp only [Option.some.injEq, Prod.mk.injEq, reduceCtorEq, and_false,
          false_and, and_true, eq_self_iff_true] at h
      all_goals
        first
          | (obtain ⟨h1, h2⟩ := h; subst h1; rfl)
          | (subst h; rfl)

theorem C8_failure_preserves_timestamp_witness :
    hw_scrapeMetrics (.ok failStoreAll) 100 0 ⟨[], some 7⟩
      = some (⟨[], some 7⟩, some "hw psu info collection failed: connection refused") ∧
    (⟨[], some 7⟩ : CollectorState).lastScrapeTime = some 7 :=
  ⟨by decide,
    ((C8_failure_preserves_timestamp (.ok failStoreAll) 100 0 ⟨[], some 7⟩ ⟨[], some 7⟩
      "hw psu info collection failed: connection refused").1 (by decide)).trans rfl⟩

/-- C10: PSU slot extraction indexes `strings.Split(psuKey, " ")[1]`
unguarded.  When the first listed PSU key holds no space character the
split yields a single part, the index is out of range, and Collect
panics (yields no sample sequence); and totality of the psu collection
loop is restored exactly by every key holding a space: if every listed
key holds at least one space, the loop never panics. -/
theorem C10_spaceless_psu_key_panics (store : RedisStore) (key : String)
    (rest : List String) (now : Nat) (dur : Rat) (s : CollectorState)
    (hsp : ' ' ∉ key.data)
    (hk : store.keysFromDb "STATE_DB" "PSU_INFO|PSU*" = .ok (key :: rest))
    (hfresh : cacheFresh s.lastScrapeTime now = false) :
    hw_Collect (.ok store) now dur s = none ∧
    (∀ store2 keys2, (∀ k ∈ keys2, ' ' ∈ k.data) →
      (collectPsuInfoLoop store2 keys2).2 ≠ SubResult.panicked) := by
  constructor
  · have h1 : goSplitChar ' ' key.data = [key.data] := goSplitChar_no_sep _ _ hsp
    have h2 : (goSplit key ' ').get? 1 = none := by
      unfold goSplit
      rw [h1]
      rfl
    unfold hw_Collect
    simp only [hfresh, Bool.false_eq_true, if_false, hw_scrapeMetrics, collectPsuInfo, hk,
      collectPsuInfoLoop, h2]
  · intro store2 keys2 hall
    induction keys2 with
    | nil => simp [collectPsuInfoLoop]
    | cons k ks ih =>
      have hk2 : ' ' ∈ k.data := hall k (List.mem_cons_self k ks)
      have hlen : 2 ≤ (goSplitChar ' ' k.data).length := goSplitChar_len_two _ _ hk2
      have hget : (goSplit k ' ').get? 1 ≠ none := by
        rw [Ne, List.get?_eq_none]
        unfold goSplit
        simp only [List.length_map]
        omega
      obtain ⟨a, ha⟩ := Option.ne_none_iff_exists'.mp hget
      unfold collectPsuInfoLoop
      rw [ha]
      cases hg : store2.hgetAllFromDb "STATE_DB" k with
      | error e => simp
      | ok data =>
        rcases hrec : collectPsuInfoLoop store2 ks with ⟨more, r⟩
        have hr : r ≠ SubResult.panicked := by
          have hx := ih (fun k2 hm => hall k2 (List.mem_cons_of_mem _ hm))
          rw [hrec] at hx
          exact hx
        simp [hrec, hr]

theorem C10_spaceless_psu_key_panics_witness :
    (' ' ∉ "PSU_INFO|PSU0".data) ∧
    hw_Collect (.ok spacelessPsuStore) 100 0 initialState = none :=
  ⟨by decide,
    (C10_spaceless_psu_key_panics spacelessPsuStore "PSU_INFO|PSU0" [] 100 0 initialState
      (by decide) rfl rfl).1⟩
